import Mathlib

/-!
Shallow embedding of the `apple-ble` codec (src/advertisement.rs,
src/advertisements.rs, src/util.rs): the five Apple BLE advertisement
message kinds, their `octets` encoders and `try_from` decoders, the
2-byte SHA-256 token deriver, and the advertisement assembler with its
external transport collaborators.

Bytes (`u8`) are modelled as `Nat`; a `Vec<u8>` is a `List Nat`.  The
`u8`-typed range of byte values (`< 256`) appears as a hypothesis where
a theorem needs it.  Rust's range slicing `v[a..b]`, which panics when
the range is out of bounds, and the (never-failing) slice-to-array
`try_into` are together modelled as a fallible slice returning
`Except DecodeError`; the panic on a too-short input is the
`truncatedInput` failure condition.
-/

namespace AppleBle

/-- Failure of a decoder: the input held fewer bytes than the fixed
offsets of the layout require (in the Rust source this surfaces as a
slice-index panic / `try_into` failure inside `try_from`). -/
inductive DecodeError where
  | truncatedInput
  deriving DecidableEq

/-- Rust `value[a..b]` on a `Vec<u8>`: the sub-list at byte offsets
`[a, b)`, failing (Rust: panicking) when the range is out of bounds. -/
def sliceIdx (value : List Nat) (a b : Nat) : Except DecodeError (List Nat) :=
  if a ≤ b ∧ b ≤ value.length then .ok ((value.drop a).take (b - a))
  else .error .truncatedInput

/-- Source `const APPLE_MAGIC: u16 = 0x4c` — the Apple vendor identifier. -/
def APPLE_MAGIC : Nat := 0x4c

/-- Source `struct AirDropAdvertisementData` — three 2-byte tokens (`[u8; 2]`
fields modelled as byte lists; length 2 is a hypothesis where needed). -/
structure AirDropAdvertisementData where
  apple_id : List Nat
  phone : List Nat
  email : List Nat
  deriving DecidableEq

/-- Source `AirDropAdvertisementData::octets` (src/advertisement.rs:79-94). -/
def AirDropAdvertisementData.octets (d : AirDropAdvertisementData) : List Nat :=
  [0x05, 0x12] ++ List.replicate 8 0 ++ [0x01]
    ++ d.apple_id ++ d.phone ++ d.email ++ d.email

/-- Source `impl TryFrom<Vec<u8>> for AirDropAdvertisementData`
(src/advertisement.rs:95-104): reads the tokens from byte offsets
11..13, 13..15 and 15..17. -/
def AirDropAdvertisementData.tryFrom (value : List Nat) :
    Except DecodeError AirDropAdvertisementData := do
  let apple_id ← sliceIdx value 11 13
  let phone ← sliceIdx value 13 15
  let email ← sliceIdx value 15 17
  .ok ⟨apple_id, phone, email⟩

/-- Source `struct AirPlaySourceAdvertisementData` — a unit record. -/
structure AirPlaySourceAdvertisementData where
  deriving DecidableEq

/-- Source `AirPlaySourceAdvertisementData::octets` (src/advertisement.rs:129-136):
a constant 3-byte payload. -/
def AirPlaySourceAdvertisementData.octets (_d : AirPlaySourceAdvertisementData) :
    List Nat :=
  [0x0a, 0x01, 0x00]

/-- Source `impl TryFrom<Vec<u8>> for AirPlaySourceAdvertisementData`
(src/advertisement.rs:138-143): ignores its input and always succeeds. -/
def AirPlaySourceAdvertisementData.tryFrom (_value : List Nat) :
    Except DecodeError AirPlaySourceAdvertisementData :=
  .ok ⟨⟩

/-- Source `struct AirPlayTargetAdvertisementData` — an `Ipv4Addr`, modelled by
its 4 network-order octets (`Ipv4Addr::from` / `Ipv4Addr::octets` are
mutually inverse, so the octet list carries the same information). -/
structure AirPlayTargetAdvertisementData where
  ip_address : List Nat
  deriving DecidableEq

/-- Source `AirPlayTargetAdvertisementData::octets` (src/advertisement.rs:171-182). -/
def AirPlayTargetAdvertisementData.octets (d : AirPlayTargetAdvertisementData) :
    List Nat :=
  [0x09, 0x06, 0x03, 0x07] ++ d.ip_address

/-- Source `impl TryFrom<Vec<u8>> for AirPlayTargetAdvertisementData`
(src/advertisement.rs:184-192): reads the 4 address bytes from offsets
4..8. -/
def AirPlayTargetAdvertisementData.tryFrom (value : List Nat) :
    Except DecodeError AirPlayTargetAdvertisementData := do
  let ip_address ← sliceIdx value 4 8
  .ok ⟨ip_address⟩

/-- Source `struct AirPrintAdvertisementData` — a `u16` port, an `Ipv6Addr`
(modelled by its 16 octets) and a `u8` power level. -/
structure AirPrintAdvertisementData where
  port : Nat
  ip_addr : List Nat
  power : Nat
  deriving DecidableEq

/-- Rust `u16::to_be_bytes`, on a `port < 2^16`. -/
def u16ToBeBytes (p : Nat) : List Nat :=
  [p / 256 % 256, p % 256]

/-- Source `AirPrintAdvertisementData::octets` (src/advertisement.rs:221-237). -/
def AirPrintAdvertisementData.octets (d : AirPrintAdvertisementData) : List Nat :=
  [0x03, 0x16, 0x74, 0x07, 0x6f] ++ u16ToBeBytes d.port ++ d.ip_addr ++ [d.power]

/-- Source `impl TryFrom<Vec<u8>> for AirPrintAdvertisementData`
(src/advertisement.rs:239-249): `port = (value[5] as u16) << 8 | value[6]`,
address from offsets 7..23, power from offset 23. -/
def AirPrintAdvertisementData.tryFrom (value : List Nat) :
    Except DecodeError AirPrintAdvertisementData := do
  let ip_address ← sliceIdx value 7 23
  let hi ← sliceIdx value 5 6
  let lo ← sliceIdx value 6 7
  let pw ← sliceIdx value 23 24
  .ok ⟨((hi.headD 0) <<< 8) ||| lo.headD 0, ip_address, pw.headD 0⟩

/-- Source `struct FindMyAdvertisementData` — a `[u8; 28]` public key, modelled
as a byte list (length 28 is a hypothesis where needed). -/
structure FindMyAdvertisementData where
  public_key : List Nat
  deriving DecidableEq

/-- Source `FindMyAdvertisementData::octets` (src/advertisement.rs:276-288):
`split_at(6)` keeps the last 22 key bytes for the payload and derives the
trailing byte as `public_key[0] >> 6`. -/
def FindMyAdvertisementData.octets (d : FindMyAdvertisementData) : List Nat :=
  [0x12, 0x19, 0x00] ++ d.public_key.drop 6 ++ [d.public_key.headD 0 >>> 6]

/-- Source `impl TryFrom<(Address, Vec<u8>)> for FindMyAdvertisementData`
(src/advertisement.rs:290-301): concatenates the 6 address bytes with
`value[2..24]` and converts to `[u8; 28]` (failing when the result is
not 28 bytes long). -/
def FindMyAdvertisementData.tryFrom (addr : List Nat) (value : List Nat) :
    Except DecodeError FindMyAdvertisementData := do
  let keyTail ← sliceIdx value 2 24
  let pk := addr ++ keyTail
  if pk.length = 28 then .ok ⟨pk⟩ else .error .truncatedInput

/-! ### SHA-256 (FIPS 180-4)

`get_first_two_bytes_of_sha256` delegates hashing to the external `sha2`
crate; the function it computes is standard SHA-256, modelled here over
byte lists with `Nat` words reduced mod `2^32`. -/

namespace Sha256

/-- Truncation to a 32-bit word. -/
def w32 (x : Nat) : Nat := x % 2 ^ 32

/-- Right rotation of a 32-bit word by `n` places. -/
def rotateRight (n x : Nat) : Nat := w32 ((x >>> n) ||| (x <<< (32 - n)))

/-- The `Ch` function. -/
def choose (x y z : Nat) : Nat := (x &&& y) ^^^ ((x ^^^ 0xffffffff) &&& z)

/-- The `Maj` function. -/
def majority (x y z : Nat) : Nat := (x &&& y) ^^^ (x &&& z) ^^^ (y &&& z)

/-- The `Σ₀` compression sigma. -/
def bigSigma0 (x : Nat) : Nat := rotateRight 2 x ^^^ rotateRight 13 x ^^^ rotateRight 22 x

/-- The `Σ₁` compression sigma. -/
def bigSigma1 (x : Nat) : Nat := rotateRight 6 x ^^^ rotateRight 11 x ^^^ rotateRight 25 x

/-- The `σ₀` schedule sigma. -/
def smallSigma0 (x : Nat) : Nat := rotateRight 7 x ^^^ rotateRight 18 x ^^^ (x >>> 3)

/-- The `σ₁` schedule sigma. -/
def smallSigma1 (x : Nat) : Nat := rotateRight 17 x ^^^ rotateRight 19 x ^^^ (x >>> 10)

/-- The 64 round constants (decimal values of the FIPS 180-4 table). -/
def K : List Nat :=
  [1116352408, 1899447441, 3049323471, 3921009573, 961987163,
   1508970993, 2453635748, 2870763221, 3624381080, 310598401,
   607225278, 1426881987, 1925078388, 2162078206, 2614888103,
   3248222580, 3835390401, 4022224774, 264347078, 604807628,
   770255983, 1249150122, 1555081692, 1996064986, 2554220882,
   2821834349, 2952996808, 3210313671, 3336571891, 3584528711,
   113926993, 338241895, 666307205, 773529912, 1294757372,
   1396182291, 1695183700, 1986661051, 2177026350, 2456956037,
   2730485921, 2820302411, 3259730800, 3345764771, 3516065817,
   3600352804, 4094571909, 275423344, 430227734, 506948616,
   659060556, 883997877, 958139571, 1322822218, 1537002063,
   1747873779, 1955562222, 2024104815, 2227730452, 2361852424,
   2428436474, 2756734187, 3204031479, 3329325298]

/-- Big-endian packing of bytes into 32-bit words. -/
def beWords : List Nat → List Nat
  | b0 :: b1 :: b2 :: b3 :: rest =>
      (((b0 * 256 + b1) * 256 + b2) * 256 + b3) :: beWords rest
  | _ => []

/-- Extend the 16-word block schedule by `fuel` further words. -/
def extendSchedule (fuel : Nat) (ws : List Nat) : List Nat :=
  match fuel with
  | 0 => ws
  | n + 1 =>
      let len := ws.length
      let nw := w32 (smallSigma1 (ws.getD (len - 2) 0) + ws.getD (len - 7) 0 +
                     smallSigma0 (ws.getD (len - 15) 0) + ws.getD (len - 16) 0)
      extendSchedule n (ws ++ [nw])

/-- The eight 32-bit working variables. -/
structure Hash where
  a : Nat
  b : Nat
  c : Nat
  d : Nat
  e : Nat
  f : Nat
  g : Nat
  h : Nat
  deriving DecidableEq

/-- The initial hash value `H⁽⁰⁾`. -/
def initHash : Hash :=
  ⟨1779033703, 3144134277, 1013904242, 2773480762,
   1359893119, 2600822924, 528734635, 1541459225⟩

/-- One compression round, consuming a `(Kₜ, Wₜ)` pair. -/
def step (st : Hash) (kw : Nat × Nat) : Hash :=
  let t1 := w32 (st.h + bigSigma1 st.e + choose st.e st.f st.g + kw.1 + kw.2)
  let t2 := w32 (bigSigma0 st.a + majority st.a st.b st.c)
  ⟨w32 (t1 + t2), st.a, st.b, st.c, w32 (st.d + t1), st.e, st.f, st.g⟩

/-- Compression of one 64-byte block into the running hash. -/
def compress (st : Hash) (block : List Nat) : Hash :=
  let ws := extendSchedule 48 (beWords block)
  let r := (K.zip ws).foldl step st
  ⟨w32 (st.a + r.a), w32 (st.b + r.b), w32 (st.c + r.c), w32 (st.d + r.d),
   w32 (st.e + r.e), w32 (st.f + r.f), w32 (st.g + r.g), w32 (st.h + r.h)⟩

/-- Merkle–Damgård padding: `0x80`, zeros to 56 mod 64, then the
big-endian 64-bit bit length. -/
def pad (msg : List Nat) : List Nat :=
  let len := msg.length
  let zeros := (119 - len % 64) % 64
  let bitLen := len * 8
  msg ++ [0x80] ++ List.replicate zeros 0 ++
    [(bitLen >>> 56) % 256, (bitLen >>> 48) % 256, (bitLen >>> 40) % 256,
     (bitLen >>> 32) % 256, (bitLen >>> 24) % 256, (bitLen >>> 16) % 256,
     (bitLen >>> 8) % 256, bitLen % 256]

/-- Split into 64-byte blocks; `fuel` bounds the recursion and is chosen
at least the number of blocks by the caller. -/
def chunks64 : Nat → List Nat → List (List Nat)
  | 0, _ => []
  | _ + 1, [] => []
  | n + 1, l => l.take 64 :: chunks64 n (l.drop 64)

/-- Big-endian bytes of one 32-bit word. -/
def word32be (x : Nat) : List Nat :=
  [(x >>> 24) % 256, (x >>> 16) % 256, (x >>> 8) % 256, x % 256]

/-- SHA-256 of a byte list: the 32-byte digest. -/
def sha256 (msg : List Nat) : List Nat :=
  let padded := pad msg
  let fin := (chunks64 padded.length padded).foldl compress initHash
  word32be fin.a ++ word32be fin.b ++ word32be fin.c ++ word32be fin.d ++
  word32be fin.e ++ word32be fin.f ++ word32be fin.g ++ word32be fin.h

end Sha256

/-- The UTF-8 bytes of a string, as `Nat`s. -/
def stringUtf8 (s : String) : List Nat :=
  s.toUTF8.toList.map (fun b => b.toNat)

/-- Source `get_first_two_bytes_of_sha256` (src/util.rs:6-11): hash the input
bytes and keep the first two digest bytes (`[result[0], result[1]]`). -/
def get_first_two_bytes_of_sha256 (input : List Nat) : List Nat :=
  [(Sha256.sha256 input).getD 0 0, (Sha256.sha256 input).getD 1 0]

/-- Source `AirDropAdvertisementData::new` (src/advertisements.rs:80-88): each
optional string falls back to the empty string (`unwrap_or_default`) and
is shortened to its 2-byte token. -/
def AirDropAdvertisementData.new (apple_id phone email : Option String) :
    AirDropAdvertisementData :=
  { apple_id := get_first_two_bytes_of_sha256 (stringUtf8 (apple_id.getD ""))
    phone := get_first_two_bytes_of_sha256 (stringUtf8 (phone.getD ""))
    email := get_first_two_bytes_of_sha256 (stringUtf8 (email.getD "")) }

/-! ### Advertisement assembler and external transport -/

/-- Model of `bluer::adv::Type`. -/
inductive AdvType where
  | broadcast
  | peripheral
  deriving DecidableEq

/-- Opaque failure surfaced by an external collaborator (the transport,
`sudo` escalation, or the service restart inside `set_device_addr`). -/
inductive TransportError where
  | err (code : Nat)
  deriving DecidableEq

/-- Model of `bluer::adv::Advertisement`, restricted to the fields the crate
sets; the remaining fields come from `Default::default()` and are never
read back. Durations are in milliseconds. -/
structure Advertisement where
  advertisement_type : AdvType
  local_name : Option String
  timeout_millis : Option Nat
  min_interval_millis : Option Nat
  max_interval_millis : Option Nat
  manufacturer_data : List (Nat × List Nat)
  deriving DecidableEq

/-- Externally visible requests a registration makes of the transport. -/
inductive Action where
  | setDeviceAddr (bytes : List Nat)
  | advertise (adv : Advertisement)
  deriving DecidableEq

/-- Model of `Session` (src/session.rs) together with the outcomes of the two
external-transport operations the crate invokes: the device-address
override and `adapter.advertise` (returning an opaque handle, modelled
as a `Nat`). -/
structure Session where
  adapterName : String
  setAddrOutcome : List Nat → Except TransportError Unit
  advertiseOutcome : Advertisement → Except TransportError Nat

/-- Source `set_device_addr` (src/util.rs:12-21): hands the address bytes to
the external transport (privilege escalation, `bdaddr`, service
restart) and propagates its outcome; the request itself is recorded as
an `Action`. -/
def set_device_addr (s : Session) (device_addr : List Nat) :
    Except TransportError Unit × List Action :=
  (s.setAddrOutcome device_addr, [.setDeviceAddr device_addr])

/-- The trait's default `validate_user_data` (src/advertisement.rs:25-27):
always accepts. -/
def validate_user_data {α : Type} (_user_data : α) : Except TransportError Unit :=
  .ok ()

/-- Source `AirDropAdvertisement::assemble_advertisement`
(src/advertisement.rs:109-122). -/
def AirDropAdvertisement.assemble_advertisement (s : Session)
    (user_data : AirDropAdvertisementData) :
    Except TransportError Advertisement × List Action :=
  (.ok { advertisement_type := .broadcast
         local_name := some s.adapterName
         timeout_millis := some 0
         min_interval_millis := some 100
         max_interval_millis := some 200
         manufacturer_data := [(APPLE_MAGIC, user_data.octets)] }, [])

/-- Source `AirPlaySourceAdvertisement::assemble_advertisement`
(src/advertisement.rs:149-162). -/
def AirPlaySourceAdvertisement.assemble_advertisement (s : Session)
    (user_data : AirPlaySourceAdvertisementData) :
    Except TransportError Advertisement × List Action :=
  (.ok { advertisement_type := .broadcast
         local_name := some s.adapterName
         timeout_millis := some 0
         min_interval_millis := some 100
         max_interval_millis := some 200
         manufacturer_data := [(APPLE_MAGIC, user_data.octets)] }, [])

/-- Source `AirPlayTargetAdvertisement::assemble_advertisement`
(src/advertisement.rs:197-210). -/
def AirPlayTargetAdvertisement.assemble_advertisement (s : Session)
    (user_data : AirPlayTargetAdvertisementData) :
    Except TransportError Advertisement × List Action :=
  (.ok { advertisement_type := .broadcast
         local_name := some s.adapterName
         timeout_millis := some 0
         min_interval_millis := some 100
         max_interval_millis := some 200
         manufacturer_data := [(APPLE_MAGIC, user_data.octets)] }, [])

/-- Source `AirPrintAdvertisement::assemble_advertisement`
(src/advertisement.rs:254-267). -/
def AirPrintAdvertisement.assemble_advertisement (s : Session)
    (user_data : AirPrintAdvertisementData) :
    Except TransportError Advertisement × List Action :=
  (.ok { advertisement_type := .broadcast
         local_name := some s.adapterName
         timeout_millis := some 0
         min_interval_millis := some 100
         max_interval_millis := some 200
         manufacturer_data := [(APPLE_MAGIC, user_data.octets)] }, [])

/-- Source `FindMyAdvertisement::assemble_advertisement`
(src/advertisement.rs:306-320): first `set_device_addr(session,
&user_data.public_key[0..6])?`, then the envelope. -/
def FindMyAdvertisement.assemble_advertisement (s : Session)
    (user_data : FindMyAdvertisementData) :
    Except TransportError Advertisement × List Action :=
  match set_device_addr s (user_data.public_key.take 6) with
  | (.error e, tr) => (.error e, tr)
  | (.ok _, tr) =>
      (.ok { advertisement_type := .broadcast
             local_name := some s.adapterName
             timeout_millis := some 0
             min_interval_millis := some 100
             max_interval_millis := some 200
             manufacturer_data := [(APPLE_MAGIC, user_data.octets)] }, tr)

/-- The trait's default `register` (src/advertisement.rs:34-41):
validate, assemble, then hand the envelope to `adapter.advertise`. -/
def registerWith {α : Type}
    (assemble : Session → α → Except TransportError Advertisement × List Action)
    (s : Session) (user_data : α) : Except TransportError Nat × List Action :=
  match validate_user_data user_data with
  | .error e => (.error e, [])
  | .ok _ =>
      match assemble s user_data with
      | (.error e, tr) => (.error e, tr)
      | (.ok adv, tr) =>
          match s.advertiseOutcome adv with
          | .error e => (.error e, tr ++ [.advertise adv])
          | .ok hdl => (.ok hdl, tr ++ [.advertise adv])

/-- Source `FindMyAdvertisement::register` — the trait default instantiated at
the FindMy assembler. -/
def FindMyAdvertisement.register (s : Session) (user_data : FindMyAdvertisementData) :
    Except TransportError Nat × List Action :=
  registerWith FindMyAdvertisement.assemble_advertisement s user_data

/-! ### Helper lemmas -/

lemma sliceIdx_ok {v : List Nat} {a b : Nat} (hab : a ≤ b) (hb : b ≤ v.length) :
    sliceIdx v a b = .ok ((v.drop a).take (b - a)) := by
  simp [sliceIdx, hab, hb]

lemma sliceIdx_error {v : List Nat} {a b : Nat} (h : v.length < b) :
    sliceIdx v a b = .error .truncatedInput := by
  have hcond : ¬(a ≤ b ∧ b ≤ v.length) := by omega
  simp [sliceIdx, hcond]

lemma airDrop_tryFrom_of_length {v : List Nat} (h : 17 ≤ v.length) :
    AirDropAdvertisementData.tryFrom v =
      .ok ⟨(v.drop 11).take 2, (v.drop 13).take 2, (v.drop 15).take 2⟩ := by
  unfold AirDropAdvertisementData.tryFrom
  rw [sliceIdx_ok (by omega) (by omega), sliceIdx_ok (by omega) (by omega),
    sliceIdx_ok (by omega) (by omega)]
  rfl

lemma airPlayTarget_tryFrom_of_length {v : List Nat} (h : 8 ≤ v.length) :
    AirPlayTargetAdvertisementData.tryFrom v = .ok ⟨(v.drop 4).take 4⟩ := by
  unfold AirPlayTargetAdvertisementData.tryFrom
  rw [sliceIdx_ok (by omega) (by omega)]
  rfl

lemma airPrint_tryFrom_of_length {v : List Nat} (h : 24 ≤ v.length) :
    AirPrintAdvertisementData.tryFrom v =
      .ok ⟨(((v.drop 5).take 1).headD 0 <<< 8) ||| ((v.drop 6).take 1).headD 0,
           (v.drop 7).take 16, ((v.drop 23).take 1).headD 0⟩ := by
  unfold AirPrintAdvertisementData.tryFrom
  rw [sliceIdx_ok (by omega) (by omega), sliceIdx_ok (by omega) (by omega),
    sliceIdx_ok (by omega) (by omega), sliceIdx_ok (by omega) (by omega)]
  rfl

lemma findMy_tryFrom_of_length {addr v : List Nat} (ha : addr.length = 6)
    (h : 24 ≤ v.length) :
    FindMyAdvertisementData.tryFrom addr v = .ok ⟨addr ++ (v.drop 2).take 22⟩ := by
  unfold FindMyAdvertisementData.tryFrom
  rw [sliceIdx_ok (by omega) (by omega)]
  have hlen : (addr ++ (v.drop 2).take (24 - 2)).length = 28 := by
    simp [ha]
    omega
  show (if (addr ++ (v.drop 2).take (24 - 2)).length = 28 then
          Except.ok (FindMyAdvertisementData.mk (addr ++ (v.drop 2).take (24 - 2)))
        else Except.error DecodeError.truncatedInput) =
      Except.ok (FindMyAdvertisementData.mk (addr ++ (v.drop 2).take 22))
  rw [if_pos hlen]

lemma shiftLeft_or_eq_add {a b : Nat} (hb : b < 256) :
    (a <<< 8) ||| b = a * 256 + b := by
  have h : (2 : Nat) ^ 8 * a + b = 2 ^ 8 * a ||| b :=
    Nat.mul_add_lt_is_or (by omega) a
  rw [Nat.shiftLeft_eq, Nat.mul_comm a (2 ^ 8), ← h, Nat.mul_comm (2 ^ 8) a]

/-! ### Claim theorems -/

/-- Claim C1: The spec's round-trip law `decode(encode(record)) == record`
fails on the code for the FindMy kind: with the 28-byte public key all
`0x01` and the address equal to the key's first 6 bytes, `try_from`
applied to `octets` succeeds but returns a record whose key has `0x00`
at index 6 (the reserved byte read as key material) and has lost the
last key byte — the decoder reads payload offsets 2..24 although the
encoder wrote the reserved byte at offset 2 and the key at 3..25. -/
theorem findMy_roundtrip_fails_on_code :
    FindMyAdvertisementData.tryFrom (List.replicate 6 1)
        (FindMyAdvertisementData.octets ⟨List.replicate 28 1⟩) =
      .ok ⟨List.replicate 6 1 ++ 0 :: List.replicate 21 1⟩ ∧
    (List.replicate 6 1 ++ 0 :: List.replicate 21 1 : List Nat) ≠
      List.replicate 28 1 := by
  constructor
  · rfl
  · decide

/-- Claim C2 counterexample: The encoded FindMy payload has 26 bytes,
not the 25 the claim states: tag, length and reserved byte (3), 22 key
bytes, and 1 derived trailing byte. -/
theorem findMy_octets_length_is_26 :
    (FindMyAdvertisementData.octets ⟨List.replicate 28 0⟩).length = 26 ∧
    (FindMyAdvertisementData.octets ⟨List.replicate 28 0⟩).length ≠ 25 := by
  constructor
  · decide
  · decide

/-- Claim C2 amended: Every record encodes to a byte sequence whose
length depends on the kind alone: AirDrop 19, AirPlaySource 3,
AirPlayTarget 8, AirPrint 24, and FindMy 26 bytes. -/
theorem octets_length_per_kind
    (d : AirDropAdvertisementData) (s : AirPlaySourceAdvertisementData)
    (t : AirPlayTargetAdvertisementData) (p : AirPrintAdvertisementData)
    (f : FindMyAdvertisementData)
    (hd1 : d.apple_id.length = 2) (hd2 : d.phone.length = 2)
    (hd3 : d.email.length = 2) (ht : t.ip_address.length = 4)
    (hp : p.ip_addr.length = 16) (hf : f.public_key.length = 28) :
    d.octets.length = 19 ∧ s.octets.length = 3 ∧ t.octets.length = 8 ∧
    p.octets.length = 24 ∧ f.octets.length = 26 := by
  refine ⟨?_, rfl, ?_, ?_, ?_⟩
  · simp [AirDropAdvertisementData.octets, hd1, hd2, hd3]
  · simp [AirPlayTargetAdvertisementData.octets, ht]
  · simp [AirPrintAdvertisementData.octets, u16ToBeBytes, hp]
  · simp [FindMyAdvertisementData.octets, hf]

/-- Witness for `octets_length_per_kind` at concrete records. -/
theorem octets_length_per_kind_witness :
    (AirDropAdvertisementData.octets ⟨[1, 2], [3, 4], [5, 6]⟩).length = 19 ∧
    (AirPlaySourceAdvertisementData.octets ⟨⟩).length = 3 ∧
    (AirPlayTargetAdvertisementData.octets ⟨[127, 0, 0, 1]⟩).length = 8 ∧
    (AirPrintAdvertisementData.octets
      ⟨0xf00d, List.replicate 15 0 ++ [1], 0xff⟩).length = 24 ∧
    (FindMyAdvertisementData.octets ⟨List.replicate 28 0x88⟩).length = 26 :=
  octets_length_per_kind ⟨[1, 2], [3, 4], [5, 6]⟩ ⟨⟩ ⟨[127, 0, 0, 1]⟩
    ⟨0xf00d, List.replicate 15 0 ++ [1], 0xff⟩ ⟨List.replicate 28 0x88⟩
    (by decide) (by decide) (by decide) (by decide) (by decide) (by decide)

/-- Claim C4: On an input shorter than the layout's fixed offsets require
(17 bytes for AirDrop, 8 for AirPlayTarget, 24 for AirPrint, 24 payload
bytes for FindMy), decoding fails with the truncated-input condition and
yields no record; AirPlaySource's decoder succeeds on every input, the
empty sequence included. -/
theorem tryFrom_truncated_input (v addr : List Nat) :
    (v.length < 17 → AirDropAdvertisementData.tryFrom v = .error .truncatedInput) ∧
    (v.length < 8 → AirPlayTargetAdvertisementData.tryFrom v = .error .truncatedInput) ∧
    (v.length < 24 → AirPrintAdvertisementData.tryFrom v = .error .truncatedInput) ∧
    (v.length < 24 → FindMyAdvertisementData.tryFrom addr v = .error .truncatedInput) ∧
    AirPlaySourceAdvertisementData.tryFrom v = .ok ⟨⟩ := by
  refine ⟨?_, ?_, ?_, ?_, rfl⟩
  · intro h
    unfold AirDropAdvertisementData.tryFrom
    rcases Nat.lt_or_ge v.length 13 with h13 | h13
    · rw [sliceIdx_error h13]
      rfl
    · rw [sliceIdx_ok (by omega) (by omega)]
      rcases Nat.lt_or_ge v.length 15 with h15 | h15
      · rw [sliceIdx_error h15]
        rfl
      · rw [sliceIdx_ok (by omega) (by omega), sliceIdx_error (by omega)]
        rfl
  · intro h
    unfold AirPlayTargetAdvertisementData.tryFrom
    rw [sliceIdx_error (by omega)]
    rfl
  · intro h
    unfold AirPrintAdvertisementData.tryFrom
    rcases Nat.lt_or_ge v.length 23 with h23 | h23
    · rw [sliceIdx_error h23]
      rfl
    · rw [sliceIdx_ok (by omega) (by omega), sliceIdx_ok (by omega) (by omega),
        sliceIdx_ok (by omega) (by omega), sliceIdx_error (by omega)]
      rfl
  · intro h
    unfold FindMyAdvertisementData.tryFrom
    rw [sliceIdx_error (by omega)]
    rfl

/-- Witness for `tryFrom_truncated_input` on a 1-byte input. -/
theorem tryFrom_truncated_input_witness :
    AirDropAdvertisementData.tryFrom [0] = .error .truncatedInput ∧
    AirPlayTargetAdvertisementData.tryFrom [0] = .error .truncatedInput ∧
    AirPrintAdvertisementData.tryFrom [0] = .error .truncatedInput ∧
    FindMyAdvertisementData.tryFrom [] [0] = .error .truncatedInput ∧
    AirPlaySourceAdvertisementData.tryFrom [0] = .ok ⟨⟩ := by
  obtain ⟨h1, h2, h3, h4, h5⟩ := tryFrom_truncated_input [0] []
  exact ⟨h1 (by decide), h2 (by decide), h3 (by decide), h4 (by decide), h5⟩

/-- Claim C3: For the FindMy record whose 28-byte public key is all
`0x88`: `octets` does yield tag `0x12`, length `0x19`, reserved `0x00`,
22 bytes of `0x88` and trailing `0x02`; but `try_from` with the 6
address bytes `88 88 88 88 88 88` does NOT reconstruct the original
key — it returns `88 ×6, 00, 88 ×21`, because it reads payload offsets
2..24 (taking the reserved byte and dropping the last key byte) instead
of 3..25. -/
theorem findMy_scenario_key_0x88 :
    FindMyAdvertisementData.octets ⟨List.replicate 28 0x88⟩ =
      [0x12, 0x19, 0x00] ++ List.replicate 22 0x88 ++ [0x02] ∧
    FindMyAdvertisementData.tryFrom (List.replicate 6 0x88)
        (FindMyAdvertisementData.octets ⟨List.replicate 28 0x88⟩) =
      .ok ⟨List.replicate 6 0x88 ++ 0 :: List.replicate 21 0x88⟩ ∧
    (List.replicate 6 0x88 ++ 0 :: List.replicate 21 0x88 : List Nat) ≠
      List.replicate 28 0x88 := by
  refine ⟨by decide, by rfl, by decide⟩

/-- Claim C5: No decoder inspects the tag byte at offset 0 or the length
byte at offset 1: two inputs differing only at those two positions
decode identically for every kind, and any input long enough for the
kind's fixed offsets decodes successfully whatever occupies those two
positions. -/
theorem tryFrom_ignores_tag_and_length_bytes (a b a' b' : Nat)
    (rest addr : List Nat) :
    (AirDropAdvertisementData.tryFrom (a :: b :: rest) =
        AirDropAdvertisementData.tryFrom (a' :: b' :: rest) ∧
      (15 ≤ rest.length →
        ∃ r, AirDropAdvertisementData.tryFrom (a :: b :: rest) = .ok r)) ∧
    (AirPlayTargetAdvertisementData.tryFrom (a :: b :: rest) =
        AirPlayTargetAdvertisementData.tryFrom (a' :: b' :: rest) ∧
      (6 ≤ rest.length →
        ∃ r, AirPlayTargetAdvertisementData.tryFrom (a :: b :: rest) = .ok r)) ∧
    (AirPrintAdvertisementData.tryFrom (a :: b :: rest) =
        AirPrintAdvertisementData.tryFrom (a' :: b' :: rest) ∧
      (22 ≤ rest.length →
        ∃ r, AirPrintAdvertisementData.tryFrom (a :: b :: rest) = .ok r)) ∧
    (FindMyAdvertisementData.tryFrom addr (a :: b :: rest) =
        FindMyAdvertisementData.tryFrom addr (a' :: b' :: rest) ∧
      (addr.length = 6 → 22 ≤ rest.length →
        ∃ r, FindMyAdvertisementData.tryFrom addr (a :: b :: rest) = .ok r)) ∧
    AirPlaySourceAdvertisementData.tryFrom (a :: b :: rest) =
      AirPlaySourceAdvertisementData.tryFrom (a' :: b' :: rest) := by
  refine ⟨⟨rfl, ?_⟩, ⟨rfl, ?_⟩, ⟨rfl, ?_⟩, ⟨rfl, ?_⟩, rfl⟩
  · intro h
    exact ⟨_, airDrop_tryFrom_of_length (by simp; omega)⟩
  · intro h
    exact ⟨_, airPlayTarget_tryFrom_of_length (by simp; omega)⟩
  · intro h
    exact ⟨_, airPrint_tryFrom_of_length (by simp; omega)⟩
  · intro ha h
    exact ⟨_, findMy_tryFrom_of_length ha (by simp; omega)⟩

/-- Witness for `tryFrom_ignores_tag_and_length_bytes`: inputs with
headers `1, 2` and `3, 4` over a common 22-byte tail. -/
theorem tryFrom_ignores_tag_and_length_bytes_witness :
    (AirDropAdvertisementData.tryFrom (1 :: 2 :: List.replicate 22 5) =
        AirDropAdvertisementData.tryFrom (3 :: 4 :: List.replicate 22 5) ∧
      ∃ r, AirDropAdvertisementData.tryFrom (1 :: 2 :: List.replicate 22 5) = .ok r) ∧
    (AirPlayTargetAdvertisementData.tryFrom (1 :: 2 :: List.replicate 22 5) =
        AirPlayTargetAdvertisementData.tryFrom (3 :: 4 :: List.replicate 22 5) ∧
      ∃ r, AirPlayTargetAdvertisementData.tryFrom (1 :: 2 :: List.replicate 22 5) = .ok r) ∧
    (AirPrintAdvertisementData.tryFrom (1 :: 2 :: List.replicate 22 5) =
        AirPrintAdvertisementData.tryFrom (3 :: 4 :: List.replicate 22 5) ∧
      ∃ r, AirPrintAdvertisementData.tryFrom (1 :: 2 :: List.replicate 22 5) = .ok r) ∧
    (FindMyAdvertisementData.tryFrom (List.replicate 6 9)
          (1 :: 2 :: List.replicate 22 5) =
        FindMyAdvertisementData.tryFrom (List.replicate 6 9)
          (3 :: 4 :: List.replicate 22 5) ∧
      ∃ r, FindMyAdvertisementData.tryFrom (List.replicate 6 9)
          (1 :: 2 :: List.replicate 22 5) = .ok r) ∧
    AirPlaySourceAdvertisementData.tryFrom (1 :: 2 :: List.replicate 22 5) =
      AirPlaySourceAdvertisementData.tryFrom (3 :: 4 :: List.replicate 22 5) := by
  obtain ⟨⟨e1, s1⟩, ⟨e2, s2⟩, ⟨e3, s3⟩, ⟨e4, s4⟩, e5⟩ :=
    tryFrom_ignores_tag_and_length_bytes 1 2 3 4 (List.replicate 22 5)
      (List.replicate 6 9)
  exact ⟨⟨e1, s1 (by decide)⟩, ⟨e2, s2 (by decide)⟩, ⟨e3, s3 (by decide)⟩,
    ⟨e4, s4 (by decide) (by decide)⟩, e5⟩

/-- Claim C6: The AirDrop encoding is exactly tag `0x05`, length `0x12`,
eight `0x00` padding bytes, version `0x01`, then the apple_id, phone
and email tokens, with the email token written a second time at offsets
17-18; and the decoder reads apple_id from offsets 11-12, phone from
13-14 and email from 15-16 of the full byte sequence. -/
theorem airdrop_wire_layout (d : AirDropAdvertisementData) (v : List Nat)
    (h1 : d.apple_id.length = 2) (h2 : d.phone.length = 2)
    (h3 : d.email.length = 2) (hv : 17 ≤ v.length) :
    d.octets = [0x05, 0x12, 0, 0, 0, 0, 0, 0, 0, 0, 0x01] ++
      d.apple_id ++ d.phone ++ d.email ++ d.email ∧
    (d.octets.drop 11).take 2 = d.apple_id ∧
    (d.octets.drop 13).take 2 = d.phone ∧
    (d.octets.drop 15).take 2 = d.email ∧
    (d.octets.drop 17).take 2 = d.email ∧
    d.octets.length = 19 ∧
    AirDropAdvertisementData.tryFrom v =
      .ok ⟨(v.drop 11).take 2, (v.drop 13).take 2, (v.drop 15).take 2⟩ := by
  obtain ⟨aid, ph, em⟩ := d
  simp only at h1 h2 h3
  obtain ⟨a1, a2, rfl⟩ := List.length_eq_two.mp h1
  obtain ⟨p1, p2, rfl⟩ := List.length_eq_two.mp h2
  obtain ⟨e1, e2, rfl⟩ := List.length_eq_two.mp h3
  exact ⟨rfl, rfl, rfl, rfl, rfl, rfl, airDrop_tryFrom_of_length hv⟩

/-- Witness for `airdrop_wire_layout` at the repository test's record
and a concrete 17-byte input. -/
theorem airdrop_wire_layout_witness :
    AirDropAdvertisementData.octets ⟨[0xfe, 0xdc], [0x76, 0x54], [0xba, 0x98]⟩ =
      [0x05, 0x12, 0, 0, 0, 0, 0, 0, 0, 0, 0x01] ++
        [0xfe, 0xdc] ++ [0x76, 0x54] ++ [0xba, 0x98] ++ [0xba, 0x98] ∧
    ((AirDropAdvertisementData.octets
        ⟨[0xfe, 0xdc], [0x76, 0x54], [0xba, 0x98]⟩).drop 11).take 2 = [0xfe, 0xdc] ∧
    ((AirDropAdvertisementData.octets
        ⟨[0xfe, 0xdc], [0x76, 0x54], [0xba, 0x98]⟩).drop 13).take 2 = [0x76, 0x54] ∧
    ((AirDropAdvertisementData.octets
        ⟨[0xfe, 0xdc], [0x76, 0x54], [0xba, 0x98]⟩).drop 15).take 2 = [0xba, 0x98] ∧
    ((AirDropAdvertisementData.octets
        ⟨[0xfe, 0xdc], [0x76, 0x54], [0xba, 0x98]⟩).drop 17).take 2 = [0xba, 0x98] ∧
    (AirDropAdvertisementData.octets
        ⟨[0xfe, 0xdc], [0x76, 0x54], [0xba, 0x98]⟩).length = 19 ∧
    AirDropAdvertisementData.tryFrom (List.replicate 17 7) =
      .ok ⟨((List.replicate 17 7).drop 11).take 2,
           ((List.replicate 17 7).drop 13).take 2,
           ((List.replicate 17 7).drop 15).take 2⟩ :=
  airdrop_wire_layout ⟨[0xfe, 0xdc], [0x76, 0x54], [0xba, 0x98]⟩
    (List.replicate 17 7) (by decide) (by decide) (by decide) (by decide)

/-- Claim C10: The AirDrop decoder depends only on the bytes at offsets
11 through 16: any two inputs of length at least 17 that agree on that
window — whatever their padding, version, duplicate email slot, or
trailing bytes — decode to equal records. -/
theorem airdrop_decode_depends_only_on_token_window (v w : List Nat)
    (hv : 17 ≤ v.length) (hw : 17 ≤ w.length)
    (h : (v.drop 11).take 6 = (w.drop 11).take 6) :
    AirDropAdvertisementData.tryFrom v = AirDropAdvertisementData.tryFrom w := by
  have keyA : ∀ x : List Nat, (x.take 6).take 2 = x.take 2 := by
    intro x
    simp [List.take_take]
  have keyB : ∀ x : List Nat, ((x.take 6).drop 2).take 2 = (x.drop 2).take 2 := by
    intro x
    simp [List.take_drop, List.take_take]
  have keyC : ∀ x : List Nat, ((x.take 6).drop 4).take 2 = (x.drop 4).take 2 := by
    intro x
    simp [List.take_drop, List.take_take]
  have h1 := congrArg (List.take 2) h
  rw [keyA, keyA] at h1
  have h2 := congrArg (fun t : List Nat => (t.drop 2).take 2) h
  simp only at h2
  rw [keyB, keyB] at h2
  simp only [List.drop_drop] at h2
  have h3 := congrArg (fun t : List Nat => (t.drop 4).take 2) h
  simp only at h3
  rw [keyC, keyC] at h3
  simp only [List.drop_drop] at h3
  rw [airDrop_tryFrom_of_length hv, airDrop_tryFrom_of_length hw]
  rw [h1]
  rw [show (11 : Nat) + 2 = 13 from rfl] at h2
  rw [show (11 : Nat) + 4 = 15 from rfl] at h3
  rw [h2, h3]

/-- Witness for `airdrop_decode_depends_only_on_token_window`: the two
inputs differ in the padding, the version byte, the duplicate email
slot and a trailing byte, and agree only at offsets 11-16. -/
theorem airdrop_decode_depends_only_on_token_window_witness :
    AirDropAdvertisementData.tryFrom
        (List.replicate 11 0 ++ [1, 2, 3, 4, 5, 6]) =
      AirDropAdvertisementData.tryFrom
        (List.replicate 11 9 ++ [1, 2, 3, 4, 5, 6] ++ [8, 8, 8]) :=
  airdrop_decode_depends_only_on_token_window
    (List.replicate 11 0 ++ [1, 2, 3, 4, 5, 6])
    (List.replicate 11 9 ++ [1, 2, 3, 4, 5, 6] ++ [8, 8, 8])
    (by decide) (by decide) (by decide)

/-! ### Round-trip lemmas for the kinds whose decoder matches their
encoder (AirDrop, AirPlayTarget, AirPrint). -/

lemma airDrop_roundtrip (d : AirDropAdvertisementData)
    (h1 : d.apple_id.length = 2) (h2 : d.phone.length = 2)
    (h3 : d.email.length = 2) :
    AirDropAdvertisementData.tryFrom d.octets = .ok d := by
  obtain ⟨aid, ph, em⟩ := d
  simp only at h1 h2 h3
  obtain ⟨a1, a2, rfl⟩ := List.length_eq_two.mp h1
  obtain ⟨p1, p2, rfl⟩ := List.length_eq_two.mp h2
  obtain ⟨e1, e2, rfl⟩ := List.length_eq_two.mp h3
  rfl

lemma airPlayTarget_roundtrip (t : AirPlayTargetAdvertisementData)
    (ht : t.ip_address.length = 4) :
    AirPlayTargetAdvertisementData.tryFrom t.octets = .ok t := by
  rw [airPlayTarget_tryFrom_of_length
    (by simp [AirPlayTargetAdvertisementData.octets, ht])]
  rw [show t.octets = [0x09, 0x06, 0x03, 0x07] ++ t.ip_address from rfl,
    List.drop_left' (show ([0x09, 0x06, 0x03, 0x07] : List Nat).length = 4 from rfl),
    ← ht, List.take_length]

lemma airPrint_roundtrip (p : AirPrintAdvertisementData)
    (hport : p.port < 65536) (hip : p.ip_addr.length = 16) :
    AirPrintAdvertisementData.tryFrom p.octets = .ok p := by
  have hlen : 24 ≤ p.octets.length := by
    simp [AirPrintAdvertisementData.octets, u16ToBeBytes, hip]
  have hoct : p.octets = 3 :: 22 :: 116 :: 7 :: 111 :: (p.port / 256 % 256) ::
      (p.port % 256) :: (p.ip_addr ++ [p.power]) := by
    simp [AirPrintAdvertisementData.octets, u16ToBeBytes]
  have e1 : ((p.octets.drop 5).take 1).headD 0 = p.port / 256 % 256 := by
    rw [hoct]
    rfl
  have e2 : ((p.octets.drop 6).take 1).headD 0 = p.port % 256 := by
    rw [hoct]
    rfl
  have e3 : (p.octets.drop 7).take 16 = p.ip_addr := by
    rw [hoct,
      show ((3 : Nat) :: 22 :: 116 :: 7 :: 111 :: (p.port / 256 % 256) ::
        (p.port % 256) :: (p.ip_addr ++ [p.power])).drop 7 =
          p.ip_addr ++ [p.power] from rfl,
      List.take_left' hip]
  have e4 : ((p.octets.drop 23).take 1).headD 0 = p.power := by
    rw [hoct,
      show ((3 : Nat) :: 22 :: 116 :: 7 :: 111 :: (p.port / 256 % 256) ::
        (p.port % 256) :: (p.ip_addr ++ [p.power])).drop 23 =
          (p.ip_addr ++ [p.power]).drop 16 from rfl,
      List.drop_left' hip]
    rfl
  have eport : ((p.port / 256 % 256) <<< 8) ||| (p.port % 256) = p.port := by
    rw [shiftLeft_or_eq_add (by omega)]
    omega
  rw [airPrint_tryFrom_of_length hlen, e1, e2, e3, e4, eport]

/-- Claim C7: The token deriver is a deterministic pure function that
returns the first two bytes of the SHA-256 digest of its input's UTF-8
bytes; equal inputs yield equal 2-byte tokens, and an absent (`None`)
text produces the same token as the empty string in every field of
`AirDropAdvertisementData::new`. -/
theorem token_deriver_first_two_sha256_bytes :
    (∀ input : List Nat,
      get_first_two_bytes_of_sha256 input = (Sha256.sha256 input).take 2 ∧
      (get_first_two_bytes_of_sha256 input).length = 2) ∧
    (∀ s t : String, s = t →
      get_first_two_bytes_of_sha256 (stringUtf8 s) =
        get_first_two_bytes_of_sha256 (stringUtf8 t)) ∧
    (∀ phone email : Option String,
      AirDropAdvertisementData.new none phone email =
        AirDropAdvertisementData.new (some "") phone email) ∧
    (∀ apple_id email : Option String,
      AirDropAdvertisementData.new apple_id none email =
        AirDropAdvertisementData.new apple_id (some "") email) ∧
    (∀ apple_id phone : Option String,
      AirDropAdvertisementData.new apple_id phone none =
        AirDropAdvertisementData.new apple_id phone (some "")) := by
  refine ⟨fun input => ⟨rfl, rfl⟩, fun s t hst => by rw [hst],
    fun _ _ => rfl, fun _ _ => rfl, fun _ _ => rfl⟩

/-- Witness for `token_deriver_first_two_sha256_bytes` at concrete
inputs. -/
theorem token_deriver_first_two_sha256_bytes_witness :
    get_first_two_bytes_of_sha256 [] = (Sha256.sha256 []).take 2 ∧
    get_first_two_bytes_of_sha256 (stringUtf8 "john.doe@example.com") =
      get_first_two_bytes_of_sha256 (stringUtf8 "john.doe@example.com") ∧
    AirDropAdvertisementData.new none none none =
      AirDropAdvertisementData.new (some "") none none := by
  obtain ⟨hfirst, hdet, hnone, _, _⟩ := token_deriver_first_two_sha256_bytes
  exact ⟨(hfirst []).1, hdet _ _ rfl, hnone none none⟩

/-- The token for the empty byte input is the first two bytes `e3 b0`
of `SHA-256("")`, matching the published digest
`e3b0c44298fc1c149afbf4c8996fb92427ae41e4649b934ca495991b7852b855`. -/
lemma token_of_empty_input :
    get_first_two_bytes_of_sha256 [] = [0xe3, 0xb0] := by
  decide

/-- Digest `SHA-256("abc")` starts with `ba 78 16 bf`, matching the FIPS 180-4
example digest — a sanity check that the hash model is SHA-256. -/
lemma sha256_abc_first_bytes :
    (Sha256.sha256 [0x61, 0x62, 0x63]).take 4 = [0xba, 0x78, 0x16, 0xbf] := by
  decide

lemma findMy_assemble_error {s : Session} {d : FindMyAdvertisementData}
    {e : TransportError}
    (he : s.setAddrOutcome (d.public_key.take 6) = .error e) :
    FindMyAdvertisement.assemble_advertisement s d =
      (.error e, [.setDeviceAddr (d.public_key.take 6)]) := by
  unfold FindMyAdvertisement.assemble_advertisement set_device_addr
  rw [he]

lemma findMy_assemble_ok {s : Session} {d : FindMyAdvertisementData} {u : Unit}
    (hu : s.setAddrOutcome (d.public_key.take 6) = .ok u) :
    FindMyAdvertisement.assemble_advertisement s d =
      (.ok { advertisement_type := .broadcast
             local_name := some s.adapterName
             timeout_millis := some 0
             min_interval_millis := some 100
             max_interval_millis := some 200
             manufacturer_data := [(APPLE_MAGIC, d.octets)] },
       [.setDeviceAddr (d.public_key.take 6)]) := by
  unfold FindMyAdvertisement.assemble_advertisement set_device_addr
  rw [hu]

lemma registerWith_error {α : Type}
    (assemble : Session → α → Except TransportError Advertisement × List Action)
    (s : Session) (d : α) {e : TransportError} {tr : List Action}
    (h : assemble s d = (.error e, tr)) :
    registerWith assemble s d = (.error e, tr) := by
  unfold registerWith
  rw [h]
  rfl

lemma registerWith_ok {α : Type}
    (assemble : Session → α → Except TransportError Advertisement × List Action)
    (s : Session) (d : α) {adv : Advertisement} {tr : List Action}
    (h : assemble s d = (.ok adv, tr)) :
    registerWith assemble s d =
      match s.advertiseOutcome adv with
      | .error e => (.error e, tr ++ [.advertise adv])
      | .ok hdl => (.ok hdl, tr ++ [.advertise adv]) := by
  unfold registerWith
  rw [h]
  rfl

/-- Claim C8: For FindMy, assembling first issues the device-address
override request with exactly the first 6 bytes of the public key, and
that request completes or fails before any envelope exists: on failure
`register` returns the error and its action trace holds no advertise
request; on success the override strictly precedes the advertise
request; errors from the transport's advertise call are propagated, and
validation (the trait default) always accepts, so no validation error
can arise. -/
theorem findmy_register_address_override (s : Session)
    (d : FindMyAdvertisementData) :
    (FindMyAdvertisement.assemble_advertisement s d).2 =
      [.setDeviceAddr (d.public_key.take 6)] ∧
    (∀ e : TransportError,
      s.setAddrOutcome (d.public_key.take 6) = .error e →
        FindMyAdvertisement.register s d =
          (.error e, [.setDeviceAddr (d.public_key.take 6)])) ∧
    (∀ adv : Advertisement,
      (FindMyAdvertisement.assemble_advertisement s d).1 = .ok adv →
        (FindMyAdvertisement.register s d).2 =
          [.setDeviceAddr (d.public_key.take 6), .advertise adv]) ∧
    (∀ adv : Advertisement, ∀ e : TransportError,
      (FindMyAdvertisement.assemble_advertisement s d).1 = .ok adv →
        s.advertiseOutcome adv = .error e →
          (FindMyAdvertisement.register s d).1 = .error e) ∧
    validate_user_data d = Except.ok () := by
  refine ⟨?_, ?_, ?_, ?_, rfl⟩
  · rcases hout : s.setAddrOutcome (d.public_key.take 6) with e | u
    · rw [findMy_assemble_error hout]
    · rw [findMy_assemble_ok hout]
  · intro e he
    unfold FindMyAdvertisement.register
    rw [registerWith_error _ s d (findMy_assemble_error he)]
  · intro adv hok
    unfold FindMyAdvertisement.register
    rcases hout : s.setAddrOutcome (d.public_key.take 6) with e | u
    · rw [findMy_assemble_error hout] at hok
      exact Except.noConfusion hok
    · have ha := findMy_assemble_ok hout
      rw [ha] at hok
      have henv := Except.ok.inj hok
      rw [henv] at ha
      rw [registerWith_ok _ s d ha]
      cases s.advertiseOutcome adv <;> rfl
  · intro adv e hok hadv
    unfold FindMyAdvertisement.register
    rcases hout : s.setAddrOutcome (d.public_key.take 6) with e' | u
    · rw [findMy_assemble_error hout] at hok
      exact Except.noConfusion hok
    · have ha := findMy_assemble_ok hout
      rw [ha] at hok
      have henv := Except.ok.inj hok
      rw [henv] at ha
      rw [registerWith_ok _ s d ha, hadv]

/-- A session whose device-address override fails: used to exercise the
error-propagation branch of the FindMy registration. -/
def failSession : Session :=
  ⟨"hci0", fun _ => .error (.err 7), fun _ => .ok 0⟩

/-- A session whose override succeeds but whose advertise call fails:
used to exercise transport-error propagation. -/
def advFailSession : Session :=
  ⟨"hci0", fun _ => .ok (), fun _ => .error (.err 9)⟩

/-- The FindMy record of the repository's tests: 28 bytes of `0x88`. -/
def wFindMyData : FindMyAdvertisementData :=
  ⟨List.replicate 28 0x88⟩

/-- The envelope the FindMy assembler builds for `wFindMyData` on a
session named `hci0`. -/
def wFindMyEnvelope : Advertisement :=
  { advertisement_type := .broadcast
    local_name := some "hci0"
    timeout_millis := some 0
    min_interval_millis := some 100
    max_interval_millis := some 200
    manufacturer_data := [(APPLE_MAGIC, wFindMyData.octets)] }

/-- Witness for `findmy_register_address_override`: on a session whose
override fails with error 7 the registration returns that error with no
advertise action, and on a session whose advertise fails with error 9
the override action precedes the advertise action and the error is
propagated. -/
theorem findmy_register_address_override_witness :
    (FindMyAdvertisement.assemble_advertisement failSession wFindMyData).2 =
      [.setDeviceAddr (wFindMyData.public_key.take 6)] ∧
    FindMyAdvertisement.register failSession wFindMyData =
      (.error (.err 7), [.setDeviceAddr (wFindMyData.public_key.take 6)]) ∧
    (FindMyAdvertisement.register advFailSession wFindMyData).2 =
      [.setDeviceAddr (wFindMyData.public_key.take 6),
       .advertise wFindMyEnvelope] ∧
    (FindMyAdvertisement.register advFailSession wFindMyData).1 =
      .error (.err 9) ∧
    validate_user_data wFindMyData = Except.ok () := by
  obtain ⟨f1, f2, _, _, f5⟩ :=
    findmy_register_address_override failSession wFindMyData
  obtain ⟨_, _, g3, g4, _⟩ :=
    findmy_register_address_override advFailSession wFindMyData
  exact ⟨f1, f2 (.err 7) rfl, g3 wFindMyEnvelope rfl,
    g4 wFindMyEnvelope (.err 9) rfl rfl, f5⟩

/-- The envelope contract of the claim: broadcast type, the transport's
device name as visible name, 100 ms / 200 ms interval bounds, immediate
(zero) timeout, and a single manufacturer-data entry from vendor id
`0x004C` to the encoded payload. -/
def envelopeSpec (s : Session) (payload : List Nat) (adv : Advertisement) : Prop :=
  adv.advertisement_type = .broadcast ∧
  adv.local_name = some s.adapterName ∧
  adv.min_interval_millis = some 100 ∧
  adv.max_interval_millis = some 200 ∧
  adv.timeout_millis = some 0 ∧
  adv.manufacturer_data = [(0x4c, payload)]

/-- Claim C9: For every kind and record, whenever assembly produces an
envelope it has broadcast type, the transport's device name, minimum
interval 100 ms, maximum interval 200 ms, zero timeout, and exactly one
manufacturer-data entry mapping vendor id `0x004C` to the record's
encoded payload. -/
theorem assembled_envelope_fields (s : Session) :
    (∀ (d : AirDropAdvertisementData) (adv : Advertisement),
      (AirDropAdvertisement.assemble_advertisement s d).1 = .ok adv →
        envelopeSpec s d.octets adv) ∧
    (∀ (d : AirPlaySourceAdvertisementData) (adv : Advertisement),
      (AirPlaySourceAdvertisement.assemble_advertisement s d).1 = .ok adv →
        envelopeSpec s d.octets adv) ∧
    (∀ (d : AirPlayTargetAdvertisementData) (adv : Advertisement),
      (AirPlayTargetAdvertisement.assemble_advertisement s d).1 = .ok adv →
        envelopeSpec s d.octets adv) ∧
    (∀ (d : AirPrintAdvertisementData) (adv : Advertisement),
      (AirPrintAdvertisement.assemble_advertisement s d).1 = .ok adv →
        envelopeSpec s d.octets adv) ∧
    (∀ (d : FindMyAdvertisementData) (adv : Advertisement),
      (FindMyAdvertisement.assemble_advertisement s d).1 = .ok adv →
        envelopeSpec s d.octets adv) := by
  refine ⟨?_, ?_, ?_, ?_, ?_⟩
  · intro d adv h
    have henv := Except.ok.inj h
    subst henv
    exact ⟨rfl, rfl, rfl, rfl, rfl, rfl⟩
  · intro d adv h
    have henv := Except.ok.inj h
    subst henv
    exact ⟨rfl, rfl, rfl, rfl, rfl, rfl⟩
  · intro d adv h
    have henv := Except.ok.inj h
    subst henv
    exact ⟨rfl, rfl, rfl, rfl, rfl, rfl⟩
  · intro d adv h
    have henv := Except.ok.inj h
    subst henv
    exact ⟨rfl, rfl, rfl, rfl, rfl, rfl⟩
  · intro d adv h
    rcases hout : s.setAddrOutcome (d.public_key.take 6) with e | u
    · rw [findMy_assemble_error hout] at h
      exact Except.noConfusion h
    · rw [findMy_assemble_ok hout] at h
      have henv := Except.ok.inj h
      subst henv
      exact ⟨rfl, rfl, rfl, rfl, rfl, rfl⟩

/-- A session with a working transport: override and advertise both
succeed. -/
def wSession : Session :=
  ⟨"hci0", fun _ => .ok (), fun _ => .ok 0⟩

/-- The envelope built on `wSession` for a given payload. -/
def wEnvelope (payload : List Nat) : Advertisement :=
  { advertisement_type := .broadcast
    local_name := some "hci0"
    timeout_millis := some 0
    min_interval_millis := some 100
    max_interval_millis := some 200
    manufacturer_data := [(APPLE_MAGIC, payload)] }

/-- Witness for `assembled_envelope_fields` at concrete records on a
working session. -/
theorem assembled_envelope_fields_witness :
    envelopeSpec wSession
      (AirDropAdvertisementData.octets ⟨[1, 2], [3, 4], [5, 6]⟩)
      (wEnvelope (AirDropAdvertisementData.octets ⟨[1, 2], [3, 4], [5, 6]⟩)) ∧
    envelopeSpec wSession (AirPlaySourceAdvertisementData.octets ⟨⟩)
      (wEnvelope (AirPlaySourceAdvertisementData.octets ⟨⟩)) ∧
    envelopeSpec wSession
      (AirPlayTargetAdvertisementData.octets ⟨[127, 0, 0, 1]⟩)
      (wEnvelope (AirPlayTargetAdvertisementData.octets ⟨[127, 0, 0, 1]⟩)) ∧
    envelopeSpec wSession
      (AirPrintAdvertisementData.octets ⟨0xf00d, List.replicate 15 0 ++ [1], 0xff⟩)
      (wEnvelope (AirPrintAdvertisementData.octets
        ⟨0xf00d, List.replicate 15 0 ++ [1], 0xff⟩)) ∧
    envelopeSpec wSession
      (FindMyAdvertisementData.octets ⟨List.replicate 28 0x88⟩)
      (wEnvelope (FindMyAdvertisementData.octets ⟨List.replicate 28 0x88⟩)) := by
  obtain ⟨h1, h2, h3, h4, h5⟩ := assembled_envelope_fields wSession
  exact ⟨h1 _ _ rfl, h2 _ _ rfl, h3 _ _ rfl, h4 _ _ rfl, h5 _ _ rfl⟩

end AppleBle

